import Mathlib

/-!
# Verification of the rapamycin PBPK model repository

Shallow embedding of the core of the rapamycin physiologically-based
pharmacokinetic model:

* the intestine submodel (`models/model_intestine.py`): compartments,
  species, reactions (absorption, first-pass metabolism, P-gp efflux,
  5-stage fecal transit chain) and the oral-dose dissolution rate rule;
* the liver submodel (`models/model_liver.py`): plasma/hepatocyte
  transport, saturable CYP3A4/5 metabolism, biliary export and
  enterohepatic recirculation;
* the PK extraction function `calculate_rapamycin_pk` (`pk.py`) over a
  scan-result structure.

Rate laws of the ODE models are polymorphic over a linear ordered field
`K` (instantiated at `ℚ` for decidable concrete evaluation and at `ℝ`
for trajectory statements); the PK extraction pipeline is embedded over
`ℚ` so that concrete tables evaluate by `decide` / `rfl`.
-/

namespace Rapamycin

namespace Intestine

variable {K : Type} [LinearOrderedField K]

/-- Parameters of the intestine model (`model_intestine.py`): transporter
and enzyme activity factors, kinetic constants, the dissolution constant
`Ka_dis_rap` [1/hr] and the molecular weight `Mr_rap` [g/mole]. -/
structure Params (K : Type) where
  f_oatp : K
  RAPIM_k : K
  RAP2RX_k : K
  f_cyp3a4 : K
  f_cyp3a5 : K
  f_pg : K
  RXPG_k : K
  RXEXC_k : K
  Ka_dis_rap : K
  Mr_rap : K
  Vchain : K

/-- Instantaneous state of the intestine model: species values
(concentrations, or amounts for `rx_feces` / `rap_stomach`), compartment
volumes (`Vlumen`, `Ventero`, `Vint_k` are non-constant in the source),
and the non-constant dose parameter `PODOSE_rap` [mg]. -/
structure State (K : Type) where
  rap_stomach : K
  rap_lumen : K
  rx_lumen : K
  rap_entero : K
  rx_entero : K
  rap_ext : K
  rx_feces : K
  rx_int : Fin 5 → K
  Vgu : K
  Vlumen : K
  Ventero : K
  Vint : Fin 5 → K
  PODOSE_rap : K

/-- `RAPIM` rate: `f_oatp * RAPIM_k * Vgu * rap_lumen`. -/
def RAPIM_rate (p : Params K) (s : State K) : K :=
  p.f_oatp * p.RAPIM_k * s.Vgu * s.rap_lumen

/-- `RAPABS` rate: `RAPIM_k * Ventero * rap_entero`. -/
def RAPABS_rate (p : Params K) (s : State K) : K :=
  p.RAPIM_k * s.Ventero * s.rap_entero

/-- `RAP2RX` rate (intestine): `f_cyp3a4 * f_cyp3a5 * RAP2RX_k * Ventero * rap_entero`. -/
def RAP2RX_rate (p : Params K) (s : State K) : K :=
  p.f_cyp3a4 * p.f_cyp3a5 * p.RAP2RX_k * s.Ventero * s.rap_entero

/-- `RXPG` rate: `f_pg * RXPG_k * Ventero * rx_entero`. -/
def RXPG_rate (p : Params K) (s : State K) : K :=
  p.f_pg * p.RXPG_k * s.Ventero * s.rx_entero

/-- `RXEXC` rate: `RXEXC_k * Vgu * rx_lumen`. -/
def RXEXC_rate (p : Params K) (s : State K) : K :=
  p.RXEXC_k * s.Vgu * s.rx_lumen

/-- Chain reaction rate `RXEXC_{k}`: `RXEXC_k * Vint_{k} * rx_int_{k}`. -/
def RXEXC_chain_rate (k : Fin 5) (p : Params K) (s : State K) : K :=
  p.RXEXC_k * s.Vint k * s.rx_int k

/-- `dissolution_rap` rate: `Ka_dis_rap/60 * PODOSE_rap/Mr_rap`
(the `min_per_hr` factor of the source is the literal 60). -/
def dissolution_rap_rate (p : Params K) (s : State K) : K :=
  p.Ka_dis_rap / 60 * (s.PODOSE_rap / p.Mr_rap)

/-- Rate rule of the non-constant parameter `PODOSE_rap`:
`-dissolution_rap * Mr_rap` [mg/min]. -/
def PODOSE_rap_rule (p : Params K) (s : State K) : K :=
  -(dissolution_rap_rate p s) * p.Mr_rap

/-- Species identifiers of the intestine model. -/
inductive Sp where
  | rap_stomach : Sp
  | rap_lumen : Sp
  | rx_lumen : Sp
  | rap_entero : Sp
  | rx_entero : Sp
  | rap_ext : Sp
  | rx_feces : Sp
  | rx_int : Fin 5 → Sp
deriving DecidableEq

/-- A reaction of the model: identifier, reactant, product
(all stoichiometries in the network are 1) and rate law. -/
structure Rxn (K : Type) where
  sid : String
  reactant : Sp
  product : Sp
  rate : Params K → State K → K

/-- Chain reaction `RXEXC_{k}`: `rx_int_{k} -> rx_int_{k+1}` for `k < 4`,
`rx_int_4 -> rx_feces` for the last stage. -/
def RXEXC_chain (k : Fin 5) : Rxn K :=
  { sid := "RXEXC_" ++ toString (k : ℕ)
    reactant := Sp.rx_int k
    product := if h : (k : ℕ) + 1 < 5 then Sp.rx_int ⟨(k : ℕ) + 1, h⟩ else Sp.rx_feces
    rate := RXEXC_chain_rate k }

/-- The reactions of the intestine model, in source order:
`RAPIM`, `RAPABS`, `RAP2RX`, `RXPG`, `RXEXC`, the transit chain
`RXEXC_0 .. RXEXC_4`, and `dissolution_rap`. -/
def reactions : List (Rxn K) :=
  [ { sid := "RAPIM", reactant := Sp.rap_lumen, product := Sp.rap_entero
      rate := RAPIM_rate }
  , { sid := "RAPABS", reactant := Sp.rap_entero, product := Sp.rap_ext
      rate := RAPABS_rate }
  , { sid := "RAP2RX", reactant := Sp.rap_entero, product := Sp.rx_entero
      rate := RAP2RX_rate }
  , { sid := "RXPG", reactant := Sp.rx_entero, product := Sp.rx_lumen
      rate := RXPG_rate }
  , { sid := "RXEXC", reactant := Sp.rx_lumen, product := Sp.rx_int 0
      rate := RXEXC_rate } ]
  ++ (List.finRange 5).map RXEXC_chain
  ++ [ { sid := "dissolution_rap", reactant := Sp.rap_stomach, product := Sp.rap_lumen
         rate := dissolution_rap_rate } ]

/-- Net reaction flux into a species: sum over all reactions of
(+rate if the species is the product, −rate if it is the reactant). -/
def speciesFlux (sp : Sp) (p : Params K) (s : State K) : K :=
  ((reactions : List (Rxn K)).map fun r =>
    ((if r.product = sp then (1 : K) else 0) - (if r.reactant = sp then 1 else 0))
      * r.rate p s).sum

end Intestine

namespace Liver

variable {K : Type} [LinearOrderedField K]

/-- Parameters of the liver model (`model_liver.py`): import/export rate
constants, Michaelis-Menten constants of CYP3A4/5 metabolism, activity
factors, and the biliary export constant `RXBEX_k`. -/
structure Params (K : Type) where
  RAPIM_k : K
  RAP2RX_Vmax : K
  RAP2RX_Km_rap : K
  f_cyp3a4 : K
  f_cyp3a5 : K
  RXEX_k : K
  RXBEX_k : K

/-- Instantaneous state of the liver model: species values and
compartment volumes (`Vext`, `Vli`, `Vbi` are constant in the source,
`Vlumen` is not; all are carried in the state). -/
structure State (K : Type) where
  rap_ext : K
  rx_ext : K
  rap : K
  rx : K
  rx_bi : K
  rx_lumen : K
  Vext : K
  Vli : K
  Vbi : K
  Vlumen : K

/-- `RAPIM` rate (liver, reversible `rap_ext <-> rap`):
`RAPIM_k * Vli * (rap_ext - rap)`. -/
def RAPIM_rate (p : Params K) (s : State K) : K :=
  p.RAPIM_k * s.Vli * (s.rap_ext - s.rap)

/-- `RAP2RX` rate (liver): saturable CYP3A4/5 metabolism
`f_cyp3a4 * f_cyp3a5 * RAP2RX_Vmax * Vli * rap/(rap + RAP2RX_Km_rap)`. -/
def RAP2RX_rate (p : Params K) (s : State K) : K :=
  p.f_cyp3a4 * p.f_cyp3a5 * p.RAP2RX_Vmax * s.Vli * (s.rap / (s.rap + p.RAP2RX_Km_rap))

/-- `RXEX` rate (reversible `rx <-> rx_ext`): `RXEX_k * Vli * (rx - rx_ext)`. -/
def RXEX_rate (p : Params K) (s : State K) : K :=
  p.RXEX_k * s.Vli * (s.rx - s.rx_ext)

/-- `RXBEX` rate (`rx -> rx_bi`): `RXBEX_k * Vli * rx`. -/
def RXBEX_rate (p : Params K) (s : State K) : K :=
  p.RXBEX_k * s.Vli * s.rx

/-- `RXEHC` rate (`rx_bi -> rx_lumen`): the source formula is the bare
reaction symbol `RXEX`, i.e. the flux of the `RXEX` reaction. -/
def RXEHC_rate (p : Params K) (s : State K) : K :=
  RXEX_rate p s

/-- Species identifiers of the liver model. -/
inductive Sp where
  | rap_ext : Sp
  | rx_ext : Sp
  | rap : Sp
  | rx : Sp
  | rx_bi : Sp
  | rx_lumen : Sp
deriving DecidableEq

/-- A liver-model reaction: identifier, reactant, product, reversibility
(`<->` in the source equation) and rate law. -/
structure Rxn (K : Type) where
  sid : String
  reactant : Sp
  product : Sp
  reversible : Bool
  rate : Params K → State K → K

/-- The reactions of the liver model, in source order:
`RAPIM`, `RAP2RX`, `RXEX`, `RXBEX`, `RXEHC`. -/
def reactions : List (Rxn K) :=
  [ { sid := "RAPIM", reactant := Sp.rap_ext, product := Sp.rap
      reversible := true, rate := RAPIM_rate }
  , { sid := "RAP2RX", reactant := Sp.rap, product := Sp.rx
      reversible := false, rate := RAP2RX_rate }
  , { sid := "RXEX", reactant := Sp.rx, product := Sp.rx_ext
      reversible := true, rate := RXEX_rate }
  , { sid := "RXBEX", reactant := Sp.rx, product := Sp.rx_bi
      reversible := false, rate := RXBEX_rate }
  , { sid := "RXEHC", reactant := Sp.rx_bi, product := Sp.rx_lumen
      reversible := false, rate := RXEHC_rate } ]

end Liver

namespace PK

/-- Modelled from the spec: result record of the external
noncompartmental PK calculator (`TimecoursePK` from `pkdb_analysis`,
an out-of-scope collaborator whose code is not part of this repository).
Per the spec it returns curve metrics (AUC, Cmax) and, only when a dose
is supplied, the dose-normalized metrics clearance and volume of
distribution; the row also carries the analyte label and the dose used.
Elimination-rate / half-life fields are omitted: no claim refers to them
and their defining log-linear regression is not expressible over `ℚ`. -/
structure PKRecord where
  substance : String
  dose : Option ℚ
  auc : ℚ
  cmax : ℚ
  cl : Option ℚ
  vd : Option ℚ
deriving DecidableEq, Repr

/-- Trapezoidal area under a (time, concentration) curve. -/
def trapz : List ℚ → List ℚ → ℚ
  | t1 :: t2 :: ts, c1 :: c2 :: cs => (t2 - t1) * (c1 + c2) / 2 + trapz (t2 :: ts) (c2 :: cs)
  | _, _ => 0

/-- Modelled from the spec: the external noncompartmental PK calculator
`TimecoursePK` (input: time array, concentration array, substance label,
optional dose). The spec fixes clearance = dose/AUC; for the volume of
distribution only its dose-dependence (undefined when no dose is passed)
enters any claim, so it is modelled with the same dose-normalized shape. -/
def TimecoursePK (time conc : List ℚ) (substance : String) (dose : Option ℚ) : PKRecord :=
  let auc := trapz time conc
  { substance := substance
    dose := dose
    auc := auc
    cmax := conc.foldl max 0
    cl := dose.map fun d => d / auc
    vd := dose.map fun d => d / auc }

/-- Modelled from the spec: scan-result object of the external simulation
engine (`XResult` from `sbmlsim`, out of scope, code not in this
repository). `redop_dims` is the list of scan dimensions
(`xres._redop_dims()`), `time` the replicate-reduced time grid
(`xres.dim_mean("time")`), and `data` maps a variable identifier to its
series — outer index time, inner index scan coordinate along the first
scan dimension; `none` models a missing variable (Python `KeyError`). -/
structure XResult where
  redop_dims : List String
  time : List ℚ
  data : String → Option (List (List ℚ))

/-- Failure modes of `calculate_rapamycin_pk` as a Python call: a missing
variable identifier raises a `KeyError`; indexing an empty scan-dimension
list (`_redop_dims()[0]`) or an empty value array (`values[0]`) raises an
`IndexError`. The function body of `pk.py` contains no other raise site —
in particular no unsupported-scan guard. -/
inductive PkError where
  | keyError : String → PkError
  | indexError : PkError
deriving DecidableEq, Repr

/-- `xres[v].sel({scandim: k}).values`: the column of scan coordinate `k`
over the time grid. -/
def sel (rows : List (List ℚ)) (k : ℕ) : List ℚ :=
  rows.map fun row => row.getD k 0

/-- Embedding of `calculate_rapamycin_pk` (`pk.py`): takes the scanned
dimension as `_redop_dims()[0]`, reads the dose vector from
`PODOSE_rap` at the first time index, then for every scan coordinate
invokes the PK calculator on `[Cveblood_rap]` with dose
`PODOSE_rap/Mr_rap` (substance tag rewritten to `"rap"`), and on
`[Cve_rx]` with no dose (tag `"rx"`). The concentration variables are
first touched inside the per-coordinate loops, so with an empty dose
vector they are never looked up. -/
def calculate_rapamycin_pk (Mr_rap : ℚ) (xres : XResult) :
    Except PkError (List PKRecord) :=
  match xres.redop_dims.head? with
  | none => Except.error PkError.indexError
  | some _scandim =>
  match xres.data "PODOSE_rap" with
  | none => Except.error (PkError.keyError "PODOSE_rap")
  | some podose =>
  match podose.head? with
  | none => Except.error PkError.indexError
  | some dose_vec =>
  if dose_vec.isEmpty then Except.ok [] else
  match xres.data "[Cveblood_rap]" with
  | none => Except.error (PkError.keyError "[Cveblood_rap]")
  | some c_rap =>
  match xres.data "[Cve_rx]" with
  | none => Except.error (PkError.keyError "[Cve_rx]")
  | some c_rx =>
    let rapRows := (List.range dose_vec.length).map fun k =>
      let dose := dose_vec.getD k 0
      let tc := TimecoursePK xres.time (sel c_rap k) "rapamycin" (some (dose / Mr_rap))
      { tc with substance := "rap" }
    let rxRows := (List.range dose_vec.length).map fun k =>
      let tc := TimecoursePK xres.time (sel c_rx k) "rx" none
      { tc with substance := "rx" }
    Except.ok (rapRows ++ rxRows)

end PK

/-! ## Concrete instances used for evaluation -/

/-- Intestine parameters with `Ka_dis_rap = 2` (the source default) and
every other field set to 1. -/
def intestineParams1 {K : Type} [LinearOrderedField K] : Intestine.Params K :=
  { f_oatp := 1, RAPIM_k := 1, RAP2RX_k := 1, f_cyp3a4 := 1, f_cyp3a5 := 1,
    f_pg := 1, RXPG_k := 1, RXEXC_k := 1, Ka_dis_rap := 2, Mr_rap := 1, Vchain := 1 }

/-- Intestine state with enterocyte rapamycin concentration `c`,
unit volumes and every other species (and the dose parameter) zero. -/
def intestineState {K : Type} [LinearOrderedField K] (c : K) : Intestine.State K :=
  { rap_stomach := 0, rap_lumen := 0, rx_lumen := 0, rap_entero := c, rx_entero := 0,
    rap_ext := 0, rx_feces := 0, rx_int := fun _ => 0, Vgu := 1, Vlumen := 1,
    Ventero := 1, Vint := fun _ => 1, PODOSE_rap := 0 }

/-- Liver parameters with every field set to 1. -/
def liverParams1 {K : Type} [LinearOrderedField K] : Liver.Params K :=
  { RAPIM_k := 1, RAP2RX_Vmax := 1, RAP2RX_Km_rap := 1, f_cyp3a4 := 1, f_cyp3a5 := 1,
    RXEX_k := 1, RXBEX_k := 1 }

/-- Liver state with plasma metabolite 1, everything else 0, unit
volumes: here the plasma-export flux (negative) differs from the
biliary-export flux (zero). -/
def liverState1 {K : Type} [LinearOrderedField K] : Liver.State K :=
  { rap_ext := 0, rx_ext := 1, rap := 0, rx := 0, rx_bi := 0, rx_lumen := 0,
    Vext := 1, Vli := 1, Vbi := 1, Vlumen := 1 }

/-- A one-dimensional scan result with two scan coordinates, three time
points, and all three variables read by `calculate_rapamycin_pk`. -/
def xres1 : PK.XResult :=
  { redop_dims := ["_dim0"]
    time := [0, 30, 60]
    data := fun v =>
      if v = "PODOSE_rap" then some [[2, 4], [1, 2], [0, 0]]
      else if v = "[Cveblood_rap]" then some [[0, 0], [3, 5], [1, 2]]
      else if v = "[Cve_rx]" then some [[0, 0], [1, 1], [2, 1]]
      else none }

/-- The same result data with a second scan dimension declared. -/
def xres2d : PK.XResult :=
  { redop_dims := ["_dim0", "_dim1"], time := [0, 30, 60], data := xres1.data }

/-- A scan result whose scan dimension has zero coordinates and which
lacks both concentration variables. -/
def xres0coords : PK.XResult :=
  { redop_dims := ["_dim0"], time := [0, 30, 60]
    data := fun v => if v = "PODOSE_rap" then some [[], [], []] else none }

/-- A scan result lacking the oral-dose variable `PODOSE_rap`
(e.g. an intravenous-only result). -/
def xresNoDose : PK.XResult :=
  { redop_dims := ["_dim0"], time := [0, 30, 60]
    data := fun v => if v = "PODOSE_rap" then none else xres1.data v }

/-- Successor-embedding helper for chain indices. -/
theorem finSucc0 : Fin.succ (0 : Fin 4) = (1 : Fin 5) := rfl

/-- Successor-embedding helper for chain indices. -/
theorem finSucc1 : Fin.succ (1 : Fin 4) = (2 : Fin 5) := rfl

/-- Successor-embedding helper for chain indices. -/
theorem finSucc2 : Fin.succ (2 : Fin 4) = (3 : Fin 5) := rfl

/-- Successor-embedding helper for chain indices. -/
theorem finSucc3 : Fin.succ (3 : Fin 4) = (4 : Fin 5) := rfl

/-- Successor-embedding helper for chain indices. -/
theorem finSuccSucc2 : (Fin.succ (2 : Fin 3)).succ = (4 : Fin 5) := rfl

/-- Cast-embedding helper for chain indices. -/
theorem finCast0 : Fin.castSucc (0 : Fin 4) = (0 : Fin 5) := rfl

/-- Cast-embedding helper for chain indices. -/
theorem finCast1 : Fin.castSucc (1 : Fin 4) = (1 : Fin 5) := rfl

/-- Cast-embedding helper for chain indices. -/
theorem finCast2 : Fin.castSucc (2 : Fin 4) = (2 : Fin 5) := rfl

/-- Cast-embedding helper for chain indices. -/
theorem finCast3 : Fin.castSucc (3 : Fin 4) = (3 : Fin 5) := rfl

/-- Numeral coercion helper for `Fin 5` indices. -/
theorem finVal0 : ((0 : Fin 5) : ℕ) = 0 := rfl

/-- Numeral coercion helper for `Fin 5` indices. -/
theorem finVal1 : ((1 : Fin 5) : ℕ) = 1 := rfl

/-- Numeral coercion helper for `Fin 5` indices. -/
theorem finVal2 : ((2 : Fin 5) : ℕ) = 2 := rfl

/-- Numeral coercion helper for `Fin 5` indices. -/
theorem finVal3 : ((3 : Fin 5) : ℕ) = 3 := rfl

/-- Numeral coercion helper for `Fin 5` indices. -/
theorem finVal4 : ((4 : Fin 5) : ℕ) = 4 := rfl

/-- The intestine reaction list, fully enumerated (the transit chain
unfolded to its five stages). -/
theorem intestineReactions_eq {K : Type} [LinearOrderedField K] :
    (Intestine.reactions : List (Intestine.Rxn K))
      = [ { sid := "RAPIM", reactant := Intestine.Sp.rap_lumen,
            product := Intestine.Sp.rap_entero, rate := Intestine.RAPIM_rate }
        , { sid := "RAPABS", reactant := Intestine.Sp.rap_entero,
            product := Intestine.Sp.rap_ext, rate := Intestine.RAPABS_rate }
        , { sid := "RAP2RX", reactant := Intestine.Sp.rap_entero,
            product := Intestine.Sp.rx_entero, rate := Intestine.RAP2RX_rate }
        , { sid := "RXPG", reactant := Intestine.Sp.rx_entero,
            product := Intestine.Sp.rx_lumen, rate := Intestine.RXPG_rate }
        , { sid := "RXEXC", reactant := Intestine.Sp.rx_lumen,
            product := Intestine.Sp.rx_int 0, rate := Intestine.RXEXC_rate }
        , Intestine.RXEXC_chain 0, Intestine.RXEXC_chain 1, Intestine.RXEXC_chain 2
        , Intestine.RXEXC_chain 3, Intestine.RXEXC_chain 4
        , { sid := "dissolution_rap", reactant := Intestine.Sp.rap_stomach,
            product := Intestine.Sp.rap_lumen, rate := Intestine.dissolution_rap_rate } ] :=
  rfl

/-! ## Claims -/

/-- C2 (counterexample): the intestine reaction `RAP2RX` does NOT have
the saturable Michaelis-Menten form — no constants `Vmax`, `Km` make its
rate equal to `f_cyp3a4 * f_cyp3a5 * Vmax * Ventero * rap_entero /
(rap_entero + Km)` at every state. -/
theorem claim_C2_counterexample :
    ¬ ∃ Vmax Km : ℚ, ∀ (p : Intestine.Params ℚ) (s : Intestine.State ℚ),
      Intestine.RAP2RX_rate p s
        = p.f_cyp3a4 * p.f_cyp3a5 * Vmax * s.Ventero
            * (s.rap_entero / (s.rap_entero + Km)) := by
  rintro ⟨Vmax, Km, h⟩
  have h1 := h intestineParams1 (intestineState 1)
  have h2 := h intestineParams1 (intestineState 2)
  simp [Intestine.RAP2RX_rate, intestineParams1, intestineState] at h1 h2
  rcases eq_or_ne ((1 : ℚ) + Km) 0 with hk1 | hk1
  · rw [hk1] at h1
    simp at h1
  rcases eq_or_ne ((2 : ℚ) + Km) 0 with hk2 | hk2
  · rw [hk2] at h2
    simp at h2
  field_simp at h1 h2
  nlinarith [h1, h2]

/-- C2 (amended): only the liver `RAP2RX` reaction has the saturable
Michaelis-Menten form `f_cyp3a4 * f_cyp3a5 * Vmax * Vli * rap /
(rap + Km)`; the intestine `RAP2RX` reaction is linear (first-order):
`f_cyp3a4 * f_cyp3a5 * RAP2RX_k * Ventero * rap_entero`, homogeneous of
degree one in the substrate. -/
theorem claim_C2 {K : Type} [LinearOrderedField K] (p : Liver.Params K) (s : Liver.State K)
    (q : Intestine.Params K) (t : Intestine.State K) (c : K) :
    Liver.RAP2RX_rate p s
      = p.f_cyp3a4 * p.f_cyp3a5 * p.RAP2RX_Vmax * s.Vli * (s.rap / (s.rap + p.RAP2RX_Km_rap))
    ∧ Intestine.RAP2RX_rate q t
      = q.f_cyp3a4 * q.f_cyp3a5 * q.RAP2RX_k * t.Ventero * t.rap_entero
    ∧ Intestine.RAP2RX_rate q { t with rap_entero := c * t.rap_entero }
      = c * Intestine.RAP2RX_rate q t := by
  refine ⟨rfl, rfl, ?_⟩
  simp only [Intestine.RAP2RX_rate]
  ring

/-- C4: the dissolution reaction's rate is the molar flux
`Ka_dis_rap/60 * PODOSE_rap/Mr_rap`, the reaction carries the dose from
`rap_stomach` into `rap_lumen`, and the rate rule of the non-constant
parameter `PODOSE_rap` is exactly the negative of that flux times the
molecular weight, i.e. `-(Ka_dis_rap/60) * PODOSE_rap` in mass units. -/
theorem claim_C4 {K : Type} [LinearOrderedField K] (p : Intestine.Params K)
    (s : Intestine.State K) (hMr : p.Mr_rap ≠ 0) :
    Intestine.dissolution_rap_rate p s = p.Ka_dis_rap / 60 * (s.PODOSE_rap / p.Mr_rap)
    ∧ ({ sid := "dissolution_rap", reactant := Intestine.Sp.rap_stomach,
         product := Intestine.Sp.rap_lumen, rate := Intestine.dissolution_rap_rate }
        ∈ (Intestine.reactions : List (Intestine.Rxn K)))
    ∧ Intestine.PODOSE_rap_rule p s = -(Intestine.dissolution_rap_rate p s) * p.Mr_rap
    ∧ Intestine.PODOSE_rap_rule p s = -(p.Ka_dis_rap / 60) * s.PODOSE_rap := by
  refine ⟨rfl, by simp [Intestine.reactions], rfl, ?_⟩
  simp only [Intestine.PODOSE_rap_rule, Intestine.dissolution_rap_rate]
  field_simp
  ring

/-- C4 (witness): evaluated at concrete parameters and state. -/
theorem claim_C4_witness :
    Intestine.PODOSE_rap_rule (intestineParams1 : Intestine.Params ℚ) (intestineState 1)
      = -((intestineParams1 : Intestine.Params ℚ).Ka_dis_rap / 60)
          * (intestineState (1 : ℚ)).PODOSE_rap :=
  (claim_C4 intestineParams1 (intestineState 1) (by decide)).2.2.2

/-- C6: the enterohepatic recirculation reaction `RXEHC`
(`rx_bi -> rx_lumen`) has, at every state, rate equal to the plasma-export
flux `RXEX` (`RXEX_k * Vli * (rx - rx_ext)`), and is NOT identically
equal to the biliary-export flux `RXBEX` (`RXBEX_k * Vli * rx`). -/
theorem claim_C6 :
    (∀ (p : Liver.Params ℚ) (s : Liver.State ℚ),
        Liver.RXEHC_rate p s = Liver.RXEX_rate p s
        ∧ Liver.RXEHC_rate p s = p.RXEX_k * s.Vli * (s.rx - s.rx_ext))
    ∧ ({ sid := "RXEHC", reactant := Liver.Sp.rx_bi, product := Liver.Sp.rx_lumen,
         reversible := false, rate := Liver.RXEHC_rate }
        ∈ (Liver.reactions : List (Liver.Rxn ℚ)))
    ∧ ¬ ∀ (p : Liver.Params ℚ) (s : Liver.State ℚ),
          Liver.RXEHC_rate p s = Liver.RXBEX_rate p s := by
  refine ⟨fun p s => ⟨rfl, rfl⟩, by simp [Liver.reactions], ?_⟩
  intro h
  have h1 := h liverParams1 liverState1
  simp [Liver.RXEHC_rate, Liver.RXEX_rate, Liver.RXBEX_rate, liverParams1, liverState1] at h1

/-- C7: the intestinal apical import `RAPIM` and the basolateral
absorption `RAPABS` have the source formulas, both referencing the one
rate constant `RAPIM_k`; scaling that single constant scales the two
rates by the same factor at every state, so absorption cannot vary
independently of import. -/
theorem claim_C7 {K : Type} [LinearOrderedField K] (p : Intestine.Params K)
    (s : Intestine.State K) (c : K) :
    Intestine.RAPIM_rate p s = p.f_oatp * p.RAPIM_k * s.Vgu * s.rap_lumen
    ∧ Intestine.RAPABS_rate p s = p.RAPIM_k * s.Ventero * s.rap_entero
    ∧ Intestine.RAPIM_rate { p with RAPIM_k := c * p.RAPIM_k } s
        = c * Intestine.RAPIM_rate p s
    ∧ Intestine.RAPABS_rate { p with RAPIM_k := c * p.RAPIM_k } s
        = c * Intestine.RAPABS_rate p s := by
  refine ⟨rfl, rfl, ?_, ?_⟩
  · simp only [Intestine.RAPIM_rate]
    ring
  · simp only [Intestine.RAPABS_rate]
    ring

/-- C8: the intestinal transit chain is strictly linear. For each stage
`k < 4` the only reaction consuming `rx_int_k` is `RXEXC_{k}`, which
produces exactly `rx_int_{k+1}` (stage 4 produces `rx_feces`); every
stage reaction has the volume-normalized form
`RXEXC_k * Vint_k * rx_int_k` with the shared constant `RXEXC_k`; and
the net flux into each interior stage telescopes (outflow of stage `k`
is the inflow of stage `k+1`), so metabolite mass is conserved through
the chain. -/
theorem claim_C8 (p : Intestine.Params ℚ) (s : Intestine.State ℚ) :
    (∀ k : Fin 4,
        ((Intestine.reactions : List (Intestine.Rxn ℚ)).filter
            (fun r => r.reactant = Intestine.Sp.rx_int k.castSucc))
          = [Intestine.RXEXC_chain k.castSucc]
        ∧ ((Intestine.RXEXC_chain k.castSucc : Intestine.Rxn ℚ)).product
            = Intestine.Sp.rx_int k.succ)
    ∧ (((Intestine.reactions : List (Intestine.Rxn ℚ)).filter
          (fun r => r.reactant = Intestine.Sp.rx_int 4))
        = [Intestine.RXEXC_chain 4]
       ∧ ((Intestine.RXEXC_chain 4 : Intestine.Rxn ℚ)).product = Intestine.Sp.rx_feces)
    ∧ (∀ k : Fin 5, (Intestine.RXEXC_chain k : Intestine.Rxn ℚ).rate p s
         = p.RXEXC_k * s.Vint k * s.rx_int k)
    ∧ Intestine.speciesFlux (Intestine.Sp.rx_int 0) p s
        = Intestine.RXEXC_rate p s - Intestine.RXEXC_chain_rate 0 p s
    ∧ (∀ k : Fin 4, Intestine.speciesFlux (Intestine.Sp.rx_int k.succ) p s
         = Intestine.RXEXC_chain_rate k.castSucc p s
             - Intestine.RXEXC_chain_rate k.succ p s) := by
  refine ⟨?_, ⟨?_, ?_⟩, fun k => rfl, ?_, ?_⟩
  · intro k
    fin_cases k <;> exact ⟨rfl, rfl⟩
  · rfl
  · rfl
  · simp [Intestine.speciesFlux, Intestine.reactions, Intestine.RXEXC_chain,
      List.finRange_succ_eq_map, finSucc0, finSucc1, finSucc2, finSucc3, finCast0, finCast1,
      finCast2, finCast3, Fin.ext_iff, finVal0, finVal1, finVal2, finVal3, finVal4]
    ring
  · intro k
    fin_cases k <;>
      (simp [Intestine.speciesFlux, Intestine.reactions, Intestine.RXEXC_chain,
        List.finRange_succ_eq_map, finSucc0, finSucc1, finSucc2, finSucc3, finCast0,
        finCast1, finCast2, finCast3, finSuccSucc2, Fin.ext_iff, finVal0, finVal1, finVal2,
        finVal3, finVal4]
       ring)

/-- C9: the feces accumulator `rx_feces` appears in no reaction as a
reactant; its net flux is exactly the last chain reaction's rate
`RXEXC_k * Vint_4 * rx_int_4`, which is non-negative on non-negative
states; consequently any differentiable trajectory obeying the model's
flux has a monotonically non-decreasing feces amount. -/
theorem claim_C9 (p : Intestine.Params ℝ) (f : ℝ → Intestine.State ℝ)
    (hk : 0 ≤ p.RXEXC_k) (hV : ∀ t, 0 ≤ (f t).Vint 4) (hx : ∀ t, 0 ≤ (f t).rx_int 4)
    (hderiv : ∀ t, HasDerivAt (fun u => (f u).rx_feces)
        (Intestine.speciesFlux Intestine.Sp.rx_feces p (f t)) t) :
    (∀ r ∈ (Intestine.reactions : List (Intestine.Rxn ℝ)),
        r.reactant ≠ Intestine.Sp.rx_feces)
    ∧ (∀ s : Intestine.State ℝ, Intestine.speciesFlux Intestine.Sp.rx_feces p s
        = Intestine.RXEXC_chain_rate 4 p s)
    ∧ (∀ t, 0 ≤ Intestine.speciesFlux Intestine.Sp.rx_feces p (f t))
    ∧ Monotone fun u => (f u).rx_feces := by
  have hFlux : ∀ s : Intestine.State ℝ, Intestine.speciesFlux Intestine.Sp.rx_feces p s
      = Intestine.RXEXC_chain_rate 4 p s := by
    intro s
    simp [Intestine.speciesFlux, intestineReactions_eq, Intestine.RXEXC_chain,
      Fin.ext_iff, finVal0, finVal1, finVal2, finVal3, finVal4]
  have hnonneg : ∀ t, 0 ≤ Intestine.speciesFlux Intestine.Sp.rx_feces p (f t) := by
    intro t
    rw [hFlux]
    exact mul_nonneg (mul_nonneg hk (hV t)) (hx t)
  refine ⟨?_, hFlux, hnonneg, ?_⟩
  · intro r hr
    rw [intestineReactions_eq] at hr
    fin_cases hr <;> simp [Intestine.RXEXC_chain]
  · apply monotone_of_deriv_nonneg
    · exact fun t => (hderiv t).differentiableAt
    · intro t
      rw [(hderiv t).deriv]
      exact hnonneg t

/-- C9 (witness): the constant zero trajectory satisfies the flux
equation, and its feces amount is monotone. -/
theorem claim_C9_witness :
    (0 : ℝ) ≤ Intestine.speciesFlux Intestine.Sp.rx_feces intestineParams1
        ((fun _ : ℝ => intestineState 0) 0)
    ∧ Monotone fun u : ℝ => ((fun _ : ℝ => intestineState (0 : ℝ)) u).rx_feces := by
  have hflux0 : Intestine.speciesFlux Intestine.Sp.rx_feces intestineParams1
      (intestineState (0 : ℝ)) = 0 := by
    simp [Intestine.speciesFlux, Intestine.reactions, Intestine.RXEXC_chain,
      Intestine.RXEXC_chain_rate, Intestine.RXEXC_rate, Intestine.RAPIM_rate,
      Intestine.RAPABS_rate, Intestine.RAP2RX_rate, Intestine.RXPG_rate,
      Intestine.dissolution_rap_rate, intestineState, intestineParams1,
      List.finRange_succ_eq_map]
  have h := claim_C9 intestineParams1 (fun _ => intestineState 0) zero_le_one
    (fun _ => zero_le_one) (fun _ => le_refl 0)
    (fun t => by rw [hflux0]; exact hasDerivAt_const t _)
  exact ⟨h.2.2.1 0, h.2.2.2⟩

/-- C5: under the dose-depletion rate rule with positive `Ka_dis_rap`
and `Mr_rap`, the rule value is non-positive whenever `PODOSE_rap ≥ 0`;
and every differentiable trajectory obeying the rule with non-negative
initial dose `D0` equals `D0 * exp(-(Ka_dis_rap/60) t)`, hence stays
non-negative and is monotonically non-increasing for all time. -/
theorem claim_C5 (p : Intestine.Params ℝ) (ψ : ℝ → Intestine.State ℝ) (D0 : ℝ)
    (hKa : 0 < p.Ka_dis_rap) (hMr : 0 < p.Mr_rap) (hD0 : 0 ≤ D0)
    (hinit : (ψ 0).PODOSE_rap = D0)
    (hderiv : ∀ t, HasDerivAt (fun u => (ψ u).PODOSE_rap)
        (Intestine.PODOSE_rap_rule p (ψ t)) t) :
    (∀ s : Intestine.State ℝ, 0 ≤ s.PODOSE_rap → Intestine.PODOSE_rap_rule p s ≤ 0)
    ∧ (∀ t, (ψ t).PODOSE_rap = D0 * Real.exp (-(p.Ka_dis_rap / 60) * t))
    ∧ (∀ t, 0 ≤ (ψ t).PODOSE_rap)
    ∧ Antitone fun t => (ψ t).PODOSE_rap := by
  have hMr' : p.Mr_rap ≠ 0 := ne_of_gt hMr
  set c : ℝ := -(p.Ka_dis_rap / 60) with hc
  have hcneg : c ≤ 0 := by
    rw [hc]
    simp only [neg_nonpos]
    positivity
  have hrule : ∀ s : Intestine.State ℝ, Intestine.PODOSE_rap_rule p s = c * s.PODOSE_rap := by
    intro s
    simp only [Intestine.PODOSE_rap_rule, Intestine.dissolution_rap_rate, hc]
    field_simp
    ring
  have hsign : ∀ s : Intestine.State ℝ, 0 ≤ s.PODOSE_rap →
      Intestine.PODOSE_rap_rule p s ≤ 0 := by
    intro s hs
    rw [hrule]
    exact mul_nonpos_iff.2 (Or.inr ⟨hcneg, hs⟩)
  have hsol : ∀ t, (ψ t).PODOSE_rap = D0 * Real.exp (c * t) := by
    have hF : ∀ t, HasDerivAt (fun u => (ψ u).PODOSE_rap * Real.exp (-c * u)) 0 t := by
      intro t
      have h1 : HasDerivAt (fun u : ℝ => -c * u) (-c * 1) t := (hasDerivAt_id t).const_mul (-c)
      have h2 := h1.exp
      have h3 := (hderiv t).mul h2
      convert h3 using 1
      rw [hrule]
      ring
    have hdiff : Differentiable ℝ (fun u => (ψ u).PODOSE_rap * Real.exp (-c * u)) :=
      fun t => (hF t).differentiableAt
    intro t
    have hconst := is_const_of_deriv_eq_zero hdiff (fun x => (hF x).deriv) t 0
    simp only [hinit, mul_zero, neg_zero, Real.exp_zero, mul_one] at hconst
    have hexp : Real.exp (-c * t) ≠ 0 := Real.exp_ne_zero _
    have := congrArg (fun y => y * Real.exp (c * t)) hconst
    simpa [mul_assoc, ← Real.exp_add] using this
  refine ⟨hsign, hsol, ?_, ?_⟩
  · intro t
    rw [hsol t]
    exact mul_nonneg hD0 (Real.exp_pos _).le
  · intro u v huv
    simp only
    rw [hsol u, hsol v]
    exact mul_le_mul_of_nonneg_left
      (Real.exp_le_exp.2 (mul_le_mul_of_nonpos_left huv hcneg)) hD0

/-- C5 (witness): the explicit exponential dose trajectory over the
concrete parameters (`Ka_dis_rap = 2`, `Mr_rap = 1`) with initial dose 1:
it is everywhere non-negative and non-increasing. -/
theorem claim_C5_witness :
    (∀ t : ℝ, 0 ≤ ({ intestineState 0 with
        PODOSE_rap := Real.exp (-((2 : ℝ) / 60) * t) } : Intestine.State ℝ).PODOSE_rap)
    ∧ Antitone fun t : ℝ => ((fun u : ℝ => { intestineState 0 with
        PODOSE_rap := Real.exp (-((2 : ℝ) / 60) * u) }) t).PODOSE_rap := by
  have hderiv : ∀ t : ℝ, HasDerivAt
      (fun u : ℝ => ((fun w : ℝ => ({ intestineState 0 with
          PODOSE_rap := Real.exp (-((2 : ℝ) / 60) * w) } : Intestine.State ℝ)) u).PODOSE_rap)
      (Intestine.PODOSE_rap_rule intestineParams1 ({ intestineState 0 with
          PODOSE_rap := Real.exp (-((2 : ℝ) / 60) * t) })) t := by
    intro t
    have h1 : HasDerivAt (fun u : ℝ => -((2 : ℝ) / 60) * u) (-((2 : ℝ) / 60) * 1) t :=
      (hasDerivAt_id t).const_mul _
    have h2 := h1.exp
    convert h2 using 1
    simp [Intestine.PODOSE_rap_rule, Intestine.dissolution_rap_rate, intestineParams1]
    ring
  have h := claim_C5 intestineParams1
    (fun u : ℝ => { intestineState 0 with PODOSE_rap := Real.exp (-((2 : ℝ) / 60) * u) })
    1 two_pos one_pos zero_le_one (by simp) hderiv
  exact ⟨h.2.2.1, h.2.2.2⟩

/-- C1 (counterexample): a result with TWO scan dimensions on which
`calculate_rapamycin_pk` does not fail at all — it returns the very same
full 4-row table it returns for the one-dimensional result with the same
data, not an unsupported-scan error. -/
theorem claim_C1_counterexample :
    xres2d.redop_dims.length = 2
    ∧ (PK.calculate_rapamycin_pk 1 xres2d).isOk = true
    ∧ PK.calculate_rapamycin_pk 1 xres2d = PK.calculate_rapamycin_pk 1 xres1
    ∧ (∃ table, PK.calculate_rapamycin_pk 1 xres2d = Except.ok table ∧ table.length = 4) :=
  ⟨rfl, by decide, by rfl, ⟨_, rfl, rfl⟩⟩

/-- C1 (amended): `calculate_rapamycin_pk` performs no scan-dimension
guard. With no scan dimension it fails with an index error; the result
depends on the first scan dimension only, so extra scan dimensions are
ignored rather than rejected; whenever the three variables are present
it succeeds; and every possible failure is an index or key error — no
unsupported-scan error exists in the function. -/
theorem claim_C1 (Mr : ℚ) (xres : PK.XResult) :
    (xres.redop_dims = [] →
        PK.calculate_rapamycin_pk Mr xres = Except.error PK.PkError.indexError)
    ∧ (∀ d rest rest',
        PK.calculate_rapamycin_pk Mr { xres with redop_dims := d :: rest }
          = PK.calculate_rapamycin_pk Mr { xres with redop_dims := d :: rest' })
    ∧ (∀ podose dose_vec c_rap c_rx,
        xres.redop_dims ≠ [] →
        xres.data "PODOSE_rap" = some podose →
        podose.head? = some dose_vec →
        xres.data "[Cveblood_rap]" = some c_rap →
        xres.data "[Cve_rx]" = some c_rx →
        (PK.calculate_rapamycin_pk Mr xres).isOk = true)
    ∧ (∀ e, PK.calculate_rapamycin_pk Mr xres = Except.error e →
        e = PK.PkError.indexError
        ∨ e = PK.PkError.keyError "PODOSE_rap"
        ∨ e = PK.PkError.keyError "[Cveblood_rap]"
        ∨ e = PK.PkError.keyError "[Cve_rx]") := by
  refine ⟨?_, ?_, ?_, ?_⟩
  · intro h
    simp [PK.calculate_rapamycin_pk, h]
  · intro d rest rest'
    rfl
  · intro podose dose_vec c_rap c_rx hne hpo hhd hcr hcx
    obtain ⟨d, ds, hd⟩ := List.exists_cons_of_ne_nil hne
    rcases podose with _ | ⟨dv, rest⟩
    · simp at hhd
    · simp only [List.head?_cons, Option.some.injEq] at hhd
      subst hhd
      rcases dv with _ | ⟨d0, dvs⟩ <;>
        simp [PK.calculate_rapamycin_pk, hd, hpo, hcr, hcx, Except.isOk, Except.toBool]
  · intro e he
    rcases hh : xres.redop_dims.head? with _ | d
    · simp [PK.calculate_rapamycin_pk, hh] at he
      exact Or.inl he.symm
    rcases hp : xres.data "PODOSE_rap" with _ | podose
    · simp [PK.calculate_rapamycin_pk, hh, hp] at he
      exact Or.inr (Or.inl he.symm)
    rcases hv : podose.head? with _ | dose_vec
    · simp [PK.calculate_rapamycin_pk, hh, hp, hv] at he
      exact Or.inl he.symm
    by_cases hdv : dose_vec.isEmpty
    · simp [PK.calculate_rapamycin_pk, hh, hp, hv, hdv] at he
    rcases hr : xres.data "[Cveblood_rap]" with _ | c_rap
    · simp [PK.calculate_rapamycin_pk, hh, hp, hv, hdv, hr] at he
      exact Or.inr (Or.inr (Or.inl he.symm))
    rcases hx : xres.data "[Cve_rx]" with _ | c_rx
    · simp [PK.calculate_rapamycin_pk, hh, hp, hv, hdv, hr, hx] at he
      exact Or.inr (Or.inr (Or.inr he.symm))
    · simp [PK.calculate_rapamycin_pk, hh, hp, hv, hdv, hr, hx] at he

/-- C1 (witness): the amended theorem applied to the concrete
one-dimensional scan result. -/
theorem claim_C1_witness : (PK.calculate_rapamycin_pk 1 xres1).isOk = true :=
  (claim_C1 1 xres1).2.2.1 [[2, 4], [1, 2], [0, 0]] [2, 4]
    [[0, 0], [3, 5], [1, 2]] [[0, 0], [1, 1], [2, 1]]
    (by decide) (by decide) (by decide) (by decide) (by decide)

/-- C3: on a one-dimensional scan with `k` coordinates (and the needed
variables present), `calculate_rapamycin_pk` returns a table of exactly
`2k` rows: the first `k` rows are parent-drug rows, substance `"rap"`,
whose calculator invocation received the first-time-slice `PODOSE_rap`
value at the coordinate divided by the molecular weight, with the
dose-dependent metrics populated; the last `k` rows are metabolite rows,
substance `"rx"`, with no dose and with clearance and volume of
distribution left undefined. -/
theorem claim_C3 (Mr : ℚ) (xres : PK.XResult) (dose_vec : List ℚ)
    (podose_rest c_rap c_rx : List (List ℚ))
    (hdims : xres.redop_dims.length = 1)
    (hpo : xres.data "PODOSE_rap" = some (dose_vec :: podose_rest))
    (hcr : xres.data "[Cveblood_rap]" = some c_rap)
    (hcx : xres.data "[Cve_rx]" = some c_rx) :
    ∃ table, PK.calculate_rapamycin_pk Mr xres = Except.ok table
      ∧ table.length = 2 * dose_vec.length
      ∧ (∀ i < dose_vec.length, ∃ r, table[i]? = some r
           ∧ r.substance = "rap"
           ∧ r.dose = some (dose_vec.getD i 0 / Mr)
           ∧ r.cl.isSome ∧ r.vd.isSome)
      ∧ (∀ i < dose_vec.length, ∃ r, table[i + dose_vec.length]? = some r
           ∧ r.substance = "rx"
           ∧ r.dose = none ∧ r.cl = none ∧ r.vd = none) := by
  obtain ⟨d, hd⟩ := List.length_eq_one.mp hdims
  rcases dose_vec with _ | ⟨d0, dvs⟩
  · refine ⟨[], ?_, rfl, ?_, ?_⟩
    · simp [PK.calculate_rapamycin_pk, hd, hpo]
    · intro i hi
      simp at hi
    · intro i hi
      simp at hi
  · simp only [PK.calculate_rapamycin_pk, hd, hpo, hcr, hcx, List.head?_cons,
      List.isEmpty_cons, Bool.false_eq_true, if_false]
    refine ⟨_, rfl, ?_, ?_, ?_⟩
    · simp only [List.length_append, List.length_map, List.length_range, List.length_cons]
      ring
    · intro i hi
      rw [List.getElem?_append_left (by simpa using hi), List.getElem?_map,
        List.getElem?_range hi, Option.map_some']
      refine ⟨_, rfl, rfl, ?_, ?_, ?_⟩
      · simp [PK.TimecoursePK, List.getD_eq_getElem?_getD]
      · simp [PK.TimecoursePK]
      · simp [PK.TimecoursePK]
    · intro i hi
      rw [List.getElem?_append_right (by simp)]
      simp only [List.length_map, List.length_range, Nat.add_sub_cancel]
      rw [List.getElem?_map, List.getElem?_range hi, Option.map_some']
      refine ⟨_, rfl, rfl, rfl, ?_, ?_⟩
      · simp [PK.TimecoursePK]
      · simp [PK.TimecoursePK]

/-- C3 (witness): the theorem applied to the concrete two-coordinate
scan result. -/
theorem claim_C3_witness :
    ∃ table, PK.calculate_rapamycin_pk 1 xres1 = Except.ok table
      ∧ table.length = 2 * ([(2 : ℚ), 4]).length
      ∧ (∀ i < ([(2 : ℚ), 4]).length, ∃ r, table[i]? = some r
           ∧ r.substance = "rap"
           ∧ r.dose = some (([(2 : ℚ), 4]).getD i 0 / 1)
           ∧ r.cl.isSome ∧ r.vd.isSome)
      ∧ (∀ i < ([(2 : ℚ), 4]).length, ∃ r, table[i + ([(2 : ℚ), 4]).length]? = some r
           ∧ r.substance = "rx"
           ∧ r.dose = none ∧ r.cl = none ∧ r.vd = none) :=
  claim_C3 1 xres1 [2, 4] [[1, 2], [0, 0]] [[0, 0], [3, 5], [1, 2]] [[0, 0], [1, 1], [2, 1]]
    (by decide) (by decide) (by decide) (by decide)

/-- C10 (counterexample): a result whose scan dimension has zero
coordinates and which lacks BOTH fixed concentration identifiers — yet
`calculate_rapamycin_pk` succeeds with an empty table instead of
failing, because the concentration variables are first touched inside
the per-coordinate loops. -/
theorem claim_C10_counterexample :
    xres0coords.data "[Cveblood_rap]" = none
    ∧ xres0coords.data "[Cve_rx]" = none
    ∧ PK.calculate_rapamycin_pk 1 xres0coords = Except.ok [] :=
  ⟨rfl, rfl, by rfl⟩

/-- C10 (amended): `calculate_rapamycin_pk` reads the dose from the
fixed variable `PODOSE_rap` (first time slice) and the concentrations
from the fixed identifiers `[Cveblood_rap]` and `[Cve_rx]`, so a result
lacking `PODOSE_rap` always fails with the key error, a result lacking a
concentration variable fails with the key error provided the scan has at
least one coordinate (with zero coordinates the table is empty and the
concentration variables are never consulted), and whenever the
first-time-slice dose vector is constant — as in any scan over a
parameter other than `PODOSE_rap` — every parent-drug row receives the
same dose `d / Mr`. -/
theorem claim_C10 (Mr : ℚ) (xres : PK.XResult) (podose_rest : List (List ℚ))
    (hdims : xres.redop_dims ≠ []) :
    (xres.data "PODOSE_rap" = none →
        PK.calculate_rapamycin_pk Mr xres = Except.error (PK.PkError.keyError "PODOSE_rap"))
    ∧ (∀ dose_vec, xres.data "PODOSE_rap" = some (dose_vec :: podose_rest) →
        dose_vec ≠ [] → xres.data "[Cveblood_rap]" = none →
        PK.calculate_rapamycin_pk Mr xres
          = Except.error (PK.PkError.keyError "[Cveblood_rap]"))
    ∧ (∀ dose_vec c_rap, xres.data "PODOSE_rap" = some (dose_vec :: podose_rest) →
        dose_vec ≠ [] → xres.data "[Cveblood_rap]" = some c_rap →
        xres.data "[Cve_rx]" = none →
        PK.calculate_rapamycin_pk Mr xres
          = Except.error (PK.PkError.keyError "[Cve_rx]"))
    ∧ (∀ k d table, xres.data "PODOSE_rap" = some (List.replicate k d :: podose_rest) →
        PK.calculate_rapamycin_pk Mr xres = Except.ok table →
        ∀ i < k, ∃ r, table[i]? = some r ∧ r.dose = some (d / Mr)) := by
  obtain ⟨dm, ds, hd⟩ := List.exists_cons_of_ne_nil hdims
  refine ⟨?_, ?_, ?_, ?_⟩
  · intro h
    simp [PK.calculate_rapamycin_pk, hd, h]
  · intro dose_vec hpo hne hcr
    rcases dose_vec with _ | ⟨d0, dvs⟩
    · exact absurd rfl hne
    · simp [PK.calculate_rapamycin_pk, hd, hpo, hcr]
  · intro dose_vec c_rap hpo hne hcr hcx
    rcases dose_vec with _ | ⟨d0, dvs⟩
    · exact absurd rfl hne
    · simp [PK.calculate_rapamycin_pk, hd, hpo, hcr, hcx]
  · intro k d table hpo htable i hik
    rcases hk : k with _ | k'
    · omega
    rcases hr : xres.data "[Cveblood_rap]" with _ | c_rap
    · rw [hk] at hpo
      simp [PK.calculate_rapamycin_pk, hd, hpo, hr, List.replicate] at htable
    rcases hx : xres.data "[Cve_rx]" with _ | c_rx
    · rw [hk] at hpo
      simp [PK.calculate_rapamycin_pk, hd, hpo, hr, hx, List.replicate] at htable
    rw [hk] at hpo
    simp only [PK.calculate_rapamycin_pk, hd, hpo, hr, hx, List.head?_cons,
      List.replicate, List.isEmpty_cons, Bool.false_eq_true, if_false,
      Except.ok.injEq] at htable
    subst htable
    rw [hk] at hik
    rw [List.getElem?_append_left (by simp [List.length_replicate]; omega),
      List.getElem?_map, List.getElem?_range (by simp [List.length_replicate]; omega),
      Option.map_some']
    refine ⟨_, rfl, ?_⟩
    simp only [PK.TimecoursePK]
    congr 2
    have hgd : (List.replicate (k' + 1) d).getD i 0 = d := by
      rw [List.getD_eq_getElem?_getD, List.getElem?_replicate]
      simp [hik]
    simp only [List.replicate] at hgd
    rw [hgd]

/-- C10 (witness): applied to the concrete intravenous-only result
lacking `PODOSE_rap`. -/
theorem claim_C10_witness :
    PK.calculate_rapamycin_pk 1 xresNoDose
      = Except.error (PK.PkError.keyError "PODOSE_rap") :=
  (claim_C10 1 xresNoDose [] (by decide)).1 (by decide)

end Rapamycin
